import Mathlib

/-!
Verification of the fallbacksrc supervisor
(src/utils/fallbackswitch/src/fallbacksrc/imp.rs).

This file gives a shallow embedding of the supervisor's data model and of the
state-manipulating parts of its operations, translated from the Rust source:

* `Stats`, `Settings`, `SourceBin`, `Block`, `StreamBranch`, `Stream`, `State`
  mirror the structs of the same names (GStreamer object handles are dropped or
  replaced by the data the code reads out of them: a switch is represented by
  the priority of its current active pad, a scheduled single-shot clock id by
  the absolute time it is scheduled for, an `Instant` by a `Nat` timestamp).
* Pure state transitions (`start`, `stop`, `handle_source_error`,
  `schedule_source_restart_timeout`, the restart-timeout callback,
  `handle_buffering`, `unblock_pads`, `have_fallback_activated`,
  `handle_switch_active_pad_change`) are translated function by function.
  External side effects (pad offsets, probe removal/installation, timer
  unscheduling) are returned as explicit action lists where a claim needs them.

Machine integers: retry counters are `u64` and modelled as `Nat` (the code only
ever increments them, overflow is unreachable in any run shorter than 2^64
retries); buffering percentages are `i32` modelled as `Int`; clock times and
durations are `u64` nanoseconds modelled as `Nat`, with Rust's panicking
subtractions reached only on paths where the difference is nonnegative.
-/

namespace FallbackSrcModel

/-- Retry reasons. Modelled from the spec: the `RetryReason` enum is declared in
the crate's module file, which is not among the sources; its variants are the
spec's error taxonomy (none / error / eos / timeout / state-change-failure),
matching every use in imp.rs. -/
inductive RetryReason where
  | none
  | error
  | eos
  | timeout
  | stateChangeFailure
  deriving DecidableEq, Repr

/-- Statistics record, from `struct Stats` (imp.rs lines 30-38). -/
structure Stats where
  num_retry : Nat
  num_fallback_retry : Nat
  last_retry_reason : RetryReason
  last_fallback_retry_reason : RetryReason
  buffering_percent : Int
  fallback_buffering_percent : Int
  deriving DecidableEq, Repr

/-- Default statistics, from `impl Default for Stats` (imp.rs lines 40-51). -/
def Stats.default : Stats :=
  { num_retry := 0
    num_fallback_retry := 0
    last_retry_reason := RetryReason.none
    last_fallback_retry_reason := RetryReason.none
    buffering_percent := 100
    fallback_buffering_percent := 100 }

/-- The subset of `struct Settings` (imp.rs lines 72-89) read by the modelled
operations. `source` stands for the optional externally supplied source
element, represented by an opaque handle. Fields that only parametrise child
element construction (timeout, retry_timeout, min_latency, buffer_duration,
immediate_fallback, fallback caps) are omitted. -/
structure Settings where
  enable_audio : Bool
  enable_video : Bool
  uri : Option String
  source : Option Nat
  fallback_uri : Option String
  restart_timeout : Nat
  restart_on_eos : Bool
  manual_unblock : Bool
  deriving DecidableEq, Repr

/-- Configured source, from `enum Source` (imp.rs lines 113-117). -/
inductive Source where
  | uri (u : String)
  | element (e : Nat)
  deriving DecidableEq, Repr

/-- A posted stream collection, represented by the two facts the code ever
extracts from it: whether it declares an audio stream and whether it declares
a video stream (the `have_audio` / `have_video` folds in imp.rs). -/
structure StreamCollection where
  has_audio : Bool
  has_video : Bool
  deriving DecidableEq, Repr

/-- One managed source, from `struct SourceBin` (imp.rs lines 168-187).
A scheduled `SingleShotClockId` is represented by the absolute clock time it
is scheduled to fire at; `None` means not scheduled. -/
structure SourceBin where
  pending_restart : Bool
  is_live : Bool
  is_image : Bool
  restart_timeout : Option Nat
  pending_restart_timeout : Option Nat
  retry_timeout : Option Nat
  streams : Option StreamCollection
  deriving DecidableEq, Repr

/-- A fresh source bin as built by `create_main_input` / `create_fallback_input`
(imp.rs lines 1082-1091 and 1150-1159). -/
def SourceBin.fresh : SourceBin :=
  { pending_restart := false
    is_live := false
    is_image := false
    restart_timeout := Option.none
    pending_restart_timeout := Option.none
    retry_timeout := Option.none
    streams := Option.none }

/-- A pending pad-block record, from `struct Block` (imp.rs lines 124-128). -/
structure Block where
  probe_id : Nat
  running_time : Option Nat
  deriving DecidableEq, Repr

/-- One branch from a source pad into a switch, from `struct StreamBranch`
(imp.rs lines 130-147). `source_srcpad_eos` is the EOS pad flag of the
branch's source pad, read by `unblock_pads`. -/
structure StreamBranch where
  source_srcpad_eos : Bool
  source_srcpad_block : Option Block
  deriving DecidableEq, Repr

/-- Per stream-kind aggregate, from `struct Stream` (imp.rs lines 150-166).
`active_pad_priority` is the priority property of the switch's current
active pad, `none` when the switch has no active pad yet. -/
structure Stream where
  main_branch : Option StreamBranch
  fallback_branch : Option StreamBranch
  active_pad_priority : Option Nat
  deriving DecidableEq, Repr

/-- A fresh stream as built by `create_stream` (imp.rs lines 1162-1228). -/
def Stream.fresh : Stream :=
  { main_branch := Option.none
    fallback_branch := Option.none
    active_pad_priority := Option.none }

/-- The supervisor's aggregate state, from `struct State` (imp.rs lines
189-217). The flow combiner and dummy source handles carry no data read by
the modelled operations and are omitted. -/
structure State where
  source : SourceBin
  fallback_source : Option SourceBin
  audio_stream : Option Stream
  video_stream : Option Stream
  last_buffering_update : Option Nat
  fallback_last_buffering_update : Option Nat
  settings : Settings
  configured_source : Source
  stats : Stats
  manually_blocked : Bool
  schedule_restart_on_unblock : Bool
  deriving DecidableEq, Repr

/-- The `if fallback_source { state.fallback_source } else { state.source }`
lookup used by every handler. -/
def State.getSource (state : State) (fallback : Bool) : Option SourceBin :=
  if fallback then state.fallback_source else some state.source

/-- Writing back the source selected by `State.getSource`. -/
def State.setSource (state : State) (fallback : Bool) (sb : SourceBin) : State :=
  if fallback then { state with fallback_source := some sb }
  else { state with source := sb }

/-- Stream kinds handled by the supervisor. -/
inductive StreamKind where
  | audio
  | video
  deriving DecidableEq, Repr

/-- The stream record of a kind. -/
def State.streamOf (state : State) (kind : StreamKind) : Option Stream :=
  match kind with
  | StreamKind.audio => state.audio_stream
  | StreamKind.video => state.video_stream

/-- The main or fallback branch of a kind, as selected by the pervasive
`if fallback_source { s.fallback_branch } else { s.main_branch }` pattern. -/
def State.branchOf (state : State) (kind : StreamKind) (fallback : Bool) :
    Option StreamBranch :=
  (state.streamOf kind).bind fun s =>
    if fallback then s.fallback_branch else s.main_branch

/-- Replace the block record of the branch of a kind (no-op when the stream or
branch does not exist). -/
def State.setBranchBlock (state : State) (kind : StreamKind) (fallback : Bool)
    (b : Option Block) : State :=
  let upd : Stream → Stream := fun s =>
    if fallback then
      match s.fallback_branch with
      | some br => { s with fallback_branch := some { br with source_srcpad_block := b } }
      | Option.none => s
    else
      match s.main_branch with
      | some br => { s with main_branch := some { br with source_srcpad_block := b } }
      | Option.none => s
  match kind with
  | StreamKind.audio =>
    match state.audio_stream with
    | some s => { state with audio_stream := some (upd s) }
    | Option.none => state
  | StreamKind.video =>
    match state.video_stream with
    | some s => { state with video_stream := some (upd s) }
    | Option.none => state

/-- Errors surfaced by `start` (imp.rs lines 1230-1343): a state-change error
when already started, and the single construction error message posted when
neither a URI nor a source element is configured. -/
inductive StartError where
  | already_started
  | no_source_configured
  deriving DecidableEq, Repr

/-- The aggregate state registered by a successful `start`, mirroring the
struct literal at imp.rs lines 1318-1333: primary source from the URI if one
is set, else from the source element; a fallback source exactly when a
fallback URI is configured; a stream object per enabled kind; default
statistics. -/
def State.initial (settings : Settings) (configured_source : Source) : State :=
  { source := SourceBin.fresh
    fallback_source := settings.fallback_uri.map fun _ => SourceBin.fresh
    audio_stream := if settings.enable_audio then some Stream.fresh else Option.none
    video_stream := if settings.enable_video then some Stream.fresh else Option.none
    last_buffering_update := Option.none
    fallback_last_buffering_update := Option.none
    settings := settings
    configured_source := configured_source
    stats := Stats.default
    manually_blocked := settings.manual_unblock
    schedule_restart_on_unblock := false }

/-- The `start` transition (imp.rs lines 1230-1343), acting on the stored
`Option State`. Returns the new stored state together with the error, if
any. -/
def start (settings : Settings) (cur : Option State) :
    Option State × Option StartError :=
  match cur with
  | some st => (some st, some StartError.already_started)
  | Option.none =>
    match (settings.uri.map Source.uri).orElse
        (fun _ => settings.source.map Source.element) with
    | Option.none => (Option.none, some StartError.no_source_configured)
    | some configured_source =>
      (some (State.initial settings configured_source), Option.none)

/-- The three single-shot timers of a source bin, in the order `stop` takes and
unschedules them (imp.rs lines 1403-1413). -/
def SourceBin.scheduled_timers (s : SourceBin) : List Nat :=
  s.pending_restart_timeout.toList ++ s.retry_timeout.toList ++ s.restart_timeout.toList

/-- The `stop` transition (imp.rs lines 1345-1428), acting on the stored
`Option State`: it takes the state out (leaving `none`); when a state was
present it unschedules every scheduled timer of the primary and of the
fallback source. Returns the new stored state and the list of unscheduled
timers. -/
def stop (cur : Option State) : Option State × List Nat :=
  match cur with
  | Option.none => (Option.none, [])
  | some state =>
    (Option.none,
      state.source.scheduled_timers ++
        ((state.fallback_source.map SourceBin.scheduled_timers).getD []))

/-- The `statistics` property getter (imp.rs lines 3445-3454): default stats
when stopped, the live stats snapshot otherwise. -/
def stats_property (cur : Option State) : Stats :=
  match cur with
  | Option.none => Stats.default
  | some state => state.stats

/-- C7: when the supervisor is not already started, `start` fails with the
single construction error exactly when neither a URI nor a source element is
configured (a fallback URI being optional and irrelevant to the check), no
state is registered on failure, and on success the aggregate state is
registered with default statistics, a primary source, and a fallback source
exactly when a fallback URI is configured. -/
theorem c7_start_validation (settings : Settings) :
    (start settings Option.none =
        (Option.none, some StartError.no_source_configured) ↔
      settings.uri = Option.none ∧ settings.source = Option.none) ∧
    ((settings.uri ≠ Option.none ∨ settings.source ≠ Option.none) →
      ∃ st : State, start settings Option.none = (some st, Option.none) ∧
        st.stats = Stats.default ∧
        st.settings = settings ∧
        st.source = SourceBin.fresh ∧
        (st.fallback_source.isSome ↔ settings.fallback_uri.isSome)) := by
  constructor
  · constructor
    · intro h
      by_contra hc
      rw [Decidable.not_and_iff_or_not] at hc
      rcases hc with hc | hc
      · rcases Option.ne_none_iff_exists.mp hc with ⟨u, hu⟩
        simp [start, ← hu, Option.orElse] at h
      · rcases Option.ne_none_iff_exists.mp hc with ⟨e, he⟩
        cases hu : settings.uri with
        | none => simp [start, hu, ← he, Option.orElse] at h
        | some u => simp [start, hu, Option.orElse] at h
    · rintro ⟨hu, hs⟩
      simp [start, hu, hs, Option.orElse]
  · intro h
    cases hu : settings.uri with
    | some u =>
      refine ⟨State.initial settings (Source.uri u), ?_, rfl, rfl, rfl, ?_⟩
      · simp [start, hu, Option.orElse]
      · show (settings.fallback_uri.map fun _ => SourceBin.fresh).isSome ↔ _
        cases settings.fallback_uri <;> simp
    | none =>
      cases hs : settings.source with
      | none => rw [hu, hs] at h; simp at h
      | some e =>
        refine ⟨State.initial settings (Source.element e), ?_, rfl, rfl, rfl, ?_⟩
        · simp [start, hu, hs, Option.orElse]
        · show (settings.fallback_uri.map fun _ => SourceBin.fresh).isSome ↔ _
          cases settings.fallback_uri <;> simp

/-- C7 witness: a concrete configuration with only a URI set starts
successfully with default statistics and no fallback source. -/
theorem c7_start_validation_witness :
    ∃ st : State,
      start
        { enable_audio := true, enable_video := true, uri := some "rtsp://cam",
          source := Option.none, fallback_uri := Option.none,
          restart_timeout := 5, restart_on_eos := false, manual_unblock := false }
        Option.none = (some st, Option.none) ∧
      st.stats = Stats.default ∧
      st.settings =
        { enable_audio := true, enable_video := true, uri := some "rtsp://cam",
          source := Option.none, fallback_uri := Option.none,
          restart_timeout := 5, restart_on_eos := false, manual_unblock := false } ∧
      st.source = SourceBin.fresh ∧
      (st.fallback_source.isSome ↔
        (Option.none : Option String).isSome) := by
  have h :=
    (c7_start_validation
      { enable_audio := true, enable_video := true, uri := some "rtsp://cam",
        source := Option.none, fallback_uri := Option.none,
        restart_timeout := 5, restart_on_eos := false, manual_unblock := false }).2
      (Or.inl (by simp))
  exact h

/-- C9: calling `start` while already started returns a state-change error and
leaves the stored state unchanged. -/
theorem c9_start_already_started (settings : Settings) (st : State) :
    start settings (some st) = (some st, some StartError.already_started) := by
  rfl

/-- A timer is in a source bin's scheduled-timer list exactly when one of the
three timer slots holds it. -/
theorem SourceBin.mem_scheduled_timers (s : SourceBin) (t : Nat) :
    t ∈ s.scheduled_timers ↔
      s.restart_timeout = some t ∨ s.pending_restart_timeout = some t ∨
        s.retry_timeout = some t := by
  simp only [SourceBin.scheduled_timers, List.mem_append, Option.mem_toList, Option.mem_def]
  tauto

/-- C8: `stop` is idempotent: on an already-stopped supervisor it is a no-op
(no timer is touched), stopping twice equals stopping once, the stored state
is always `none` afterwards, and a timer is unscheduled by `stop` exactly when
it was scheduled on the primary or the fallback source, so no timer of the
three kinds remains scheduled for either source. -/
theorem c8_stop_idempotent_no_timers (cur : Option State) (st : State) (t : Nat) :
    stop (Option.none : Option State) = (Option.none, []) ∧
    (stop cur).1 = Option.none ∧
    stop (stop cur).1 = (Option.none, []) ∧
    (t ∈ (stop (some st)).2 ↔
      (st.source.restart_timeout = some t ∨
        st.source.pending_restart_timeout = some t ∨
        st.source.retry_timeout = some t) ∨
      (∃ fb : SourceBin, st.fallback_source = some fb ∧
        (fb.restart_timeout = some t ∨
          fb.pending_restart_timeout = some t ∨
          fb.retry_timeout = some t))) := by
  refine ⟨rfl, ?_, ?_, ?_⟩
  · cases cur <;> rfl
  · cases cur <;> rfl
  · show t ∈ st.source.scheduled_timers ++
        ((st.fallback_source.map SourceBin.scheduled_timers).getD []) ↔ _
    constructor
    · intro h
      rcases List.mem_append.mp h with h | h
      · exact Or.inl ((SourceBin.mem_scheduled_timers _ _).mp h)
      · cases hf : st.fallback_source with
        | none => rw [hf] at h; simp at h
        | some fb =>
          rw [hf] at h
          exact Or.inr ⟨fb, rfl, (SourceBin.mem_scheduled_timers _ _).mp (by simpa using h)⟩
    · rintro (h | ⟨fb, hfb, h⟩)
      · exact List.mem_append.mpr (Or.inl ((SourceBin.mem_scheduled_timers _ _).mpr h))
      · refine List.mem_append.mpr (Or.inr ?_)
        rw [hfb]
        simpa using (SourceBin.mem_scheduled_timers fb t).mpr h

/-- C10: reading the statistics property while stopped returns the default
statistics: both retry counters 0, both last retry reasons none, both
buffering percentages 100. -/
theorem c10_stats_stopped_default :
    stats_property (Option.none : Option State) = Stats.default ∧
    (stats_property (Option.none : Option State)).num_retry = 0 ∧
    (stats_property (Option.none : Option State)).num_fallback_retry = 0 ∧
    (stats_property (Option.none : Option State)).last_retry_reason = RetryReason.none ∧
    (stats_property (Option.none : Option State)).last_fallback_retry_reason =
      RetryReason.none ∧
    (stats_property (Option.none : Option State)).buffering_percent = 100 ∧
    (stats_property (Option.none : Option State)).fallback_buffering_percent = 100 := by
  refine ⟨rfl, rfl, rfl, rfl, rfl, rfl, rfl⟩

/-- The synchronous part of `handle_source_error` (imp.rs lines 2774-2844),
run under the state lock. It records the retry reason in the statistics,
then looks up the failing source (for the fallback source the code uses
`unwrap`, which panics when no fallback source exists — modelled by `none`).
If a restart is already pending it returns without further effect; otherwise
it increments the matching retry counter, unschedules the restart timeout,
marks the source pending-restart and spawns the asynchronous shutdown /
backoff / rebuild sequence (EOS-dropping probes and the spawned task itself
are external effects; the returned flag records that the restart sequence was
started). -/
def handle_source_error (state : State) (reason : RetryReason)
    (fallback_source : Bool) : Option (State × Bool) :=
  let stats0 :=
    if fallback_source then { state.stats with last_fallback_retry_reason := reason }
    else { state.stats with last_retry_reason := reason }
  let state := { state with stats := stats0 }
  match state.getSource fallback_source with
  | Option.none => Option.none
  | some source =>
    if source.pending_restart then
      some (state, false)
    else
      let stats1 :=
        if fallback_source then
          { state.stats with num_fallback_retry := state.stats.num_fallback_retry + 1 }
        else
          { state.stats with num_retry := state.stats.num_retry + 1 }
      let source1 := { source with restart_timeout := Option.none, pending_restart := true }
      some ({ state.setSource fallback_source source1 with stats := stats1 }, true)

/-- A sequence of error triggers against the same source, each funnelled
through `handle_source_error`; models the concurrent-trigger scenario where
several pads of one failing source report errors in some serial order under
the lock. -/
def apply_error_triggers (state : State) (fallback_source : Bool) :
    List RetryReason → Option State
  | [] => some state
  | r :: rs =>
    (handle_source_error state r fallback_source).bind fun p =>
      apply_error_triggers p.1 fallback_source rs

/-- The retry counter matching a source. -/
def State.retryCount (state : State) (fallback_source : Bool) : Nat :=
  if fallback_source then state.stats.num_fallback_retry else state.stats.num_retry

/-- Looking up a source after `handle_source_error` still finds it, and its
pending-restart flag is true afterwards. -/
theorem handle_source_error_pending (state : State) (reason : RetryReason)
    (fallback_source : Bool) (sb : SourceBin)
    (h : state.getSource fallback_source = some sb) :
    ∃ st2 started sb2, handle_source_error state reason fallback_source = some (st2, started) ∧
      st2.getSource fallback_source = some sb2 ∧ sb2.pending_restart = true ∧
      st2.retryCount fallback_source =
        state.retryCount fallback_source + (if sb.pending_restart then 0 else 1) ∧
      st2.retryCount (!fallback_source) = state.retryCount (!fallback_source) := by
  cases fallback_source with
  | false =>
    have hs : state.source = sb := by simpa [State.getSource] using h
    subst hs
    cases hp : state.source.pending_restart with
    | true =>
      exact ⟨{ state with stats := { state.stats with last_retry_reason := reason } },
        false, state.source,
        by simp [handle_source_error, State.getSource, hp],
        by simp [State.getSource],
        hp,
        by simp [State.retryCount, hp],
        by simp [State.retryCount]⟩
    | false =>
      exact ⟨{ state with
          source :=
            { state.source with restart_timeout := Option.none, pending_restart := true }
          stats :=
            { state.stats with last_retry_reason := reason
                               num_retry := state.stats.num_retry + 1 } }, true,
        { state.source with restart_timeout := Option.none, pending_restart := true },
        by simp [handle_source_error, State.getSource, State.setSource, hp],
        by simp [State.getSource],
        rfl,
        by simp [State.retryCount, hp],
        by simp [State.retryCount]⟩
  | true =>
    have hs : state.fallback_source = some sb := by simpa [State.getSource] using h
    cases hp : sb.pending_restart with
    | true =>
      exact ⟨{ state with stats := { state.stats with last_fallback_retry_reason := reason } },
        false, sb,
        by simp [handle_source_error, State.getSource, hs, hp],
        by simp [State.getSource, hs],
        hp,
        by simp [State.retryCount, hp],
        by simp [State.retryCount]⟩
    | false =>
      exact ⟨{ state with
          fallback_source :=
            some { sb with restart_timeout := Option.none, pending_restart := true }
          stats :=
            { state.stats with last_fallback_retry_reason := reason
                               num_fallback_retry := state.stats.num_fallback_retry + 1 } }, true,
        { sb with restart_timeout := Option.none, pending_restart := true },
        by simp [handle_source_error, State.getSource, State.setSource, hs, hp],
        by simp [State.getSource],
        rfl,
        by simp [State.retryCount, hp],
        by simp [State.retryCount]⟩

/-- Once the source is pending restart, further triggers leave both retry
counters unchanged and keep the source pending. -/
theorem apply_error_triggers_pending (fallback_source : Bool) (rs : List RetryReason)
    (state : State) (sb : SourceBin)
    (h : state.getSource fallback_source = some sb) (hp : sb.pending_restart = true) :
    ∃ st2 sb2, apply_error_triggers state fallback_source rs = some st2 ∧
      st2.getSource fallback_source = some sb2 ∧ sb2.pending_restart = true ∧
      st2.retryCount fallback_source = state.retryCount fallback_source ∧
      st2.retryCount (!fallback_source) = state.retryCount (!fallback_source) := by
  induction rs generalizing state sb with
  | nil => exact ⟨state, sb, rfl, h, hp, rfl, rfl⟩
  | cons r rs ih =>
    obtain ⟨st2, started, sb2, heq, hget, hpend, hcount, hother⟩ :=
      handle_source_error_pending state r fallback_source sb h
    rw [hp] at hcount
    simp only [if_true] at hcount
    obtain ⟨st3, sb3, heq3, hget3, hpend3, hcount3, hother3⟩ := ih st2 sb2 hget hpend
    refine ⟨st3, sb3, ?_, hget3, hpend3, ?_, ?_⟩
    · simp [apply_error_triggers, heq, heq3]
    · omega
    · omega

/-- C1 counterexample: on a source whose pending-restart flag is already true,
`handle_source_error` is not a no-op on the statistics — it still records the
retry reason (imp.rs lines 2789-2793 run before the pending-restart check at
line 2801): here the last retry reason changes from none to error even though
the restart is pending. -/
theorem c1_pending_restart_records_reason_cex :
    (let st : State :=
      { source := { SourceBin.fresh with pending_restart := true }
        fallback_source := Option.none
        audio_stream := Option.none
        video_stream := Option.none
        last_buffering_update := Option.none
        fallback_last_buffering_update := Option.none
        settings :=
          { enable_audio := true, enable_video := true, uri := some "u",
            source := Option.none, fallback_uri := Option.none,
            restart_timeout := 5, restart_on_eos := false, manual_unblock := false }
        configured_source := Source.uri "u"
        stats := Stats.default
        manually_blocked := false
        schedule_restart_on_unblock := false }
     st.source.pending_restart = true ∧
       st.stats.last_retry_reason = RetryReason.none ∧
       (handle_source_error st RetryReason.error false).map
           (fun p => p.1.stats.last_retry_reason) =
         some RetryReason.error) := by
  refine ⟨rfl, rfl, ?_⟩
  decide

/-- C1 (amended): `handle_source_error` always records the reason in the
statistics first; when a restart is already pending for the source the call
otherwise does nothing — the retry counter is not incremented and no second
restart sequence is started — while when no restart is pending the counter is
incremented by exactly one and the restart sequence starts (the source becomes
pending-restart with its restart timeout unscheduled); consequently, for any
serialisation of concurrent error triggers on the same source starting from a
source with no pending restart, the retry counter increments exactly once and
the other source's counter is untouched. -/
theorem c1_single_inflight_restart_amended (state : State) (reason : RetryReason)
    (fallback_source : Bool) (sb : SourceBin)
    (h : state.getSource fallback_source = some sb) :
    (sb.pending_restart = true →
      handle_source_error state reason fallback_source =
        some ({ state with stats :=
          if fallback_source then
            { state.stats with last_fallback_retry_reason := reason }
          else { state.stats with last_retry_reason := reason } }, false)) ∧
    (sb.pending_restart = false →
      ∃ st2, handle_source_error state reason fallback_source = some (st2, true) ∧
        st2.retryCount fallback_source = state.retryCount fallback_source + 1 ∧
        st2.retryCount (!fallback_source) = state.retryCount (!fallback_source) ∧
        st2.getSource fallback_source =
          some { sb with pending_restart := true, restart_timeout := Option.none }) ∧
    (sb.pending_restart = false →
      ∀ rs : List RetryReason, ∃ st2,
        apply_error_triggers state fallback_source (reason :: rs) = some st2 ∧
        st2.retryCount fallback_source = state.retryCount fallback_source + 1 ∧
        st2.retryCount (!fallback_source) = state.retryCount (!fallback_source)) := by
  have hmain : sb.pending_restart = false →
      ∃ st2, handle_source_error state reason fallback_source = some (st2, true) ∧
        st2.retryCount fallback_source = state.retryCount fallback_source + 1 ∧
        st2.retryCount (!fallback_source) = state.retryCount (!fallback_source) ∧
        st2.getSource fallback_source =
          some { sb with pending_restart := true, restart_timeout := Option.none } := by
    intro hp
    cases fallback_source with
    | false =>
      have hs : state.source = sb := by simpa [State.getSource] using h
      subst hs
      exact ⟨{ state with
          source :=
            { state.source with restart_timeout := Option.none, pending_restart := true }
          stats :=
            { state.stats with last_retry_reason := reason
                               num_retry := state.stats.num_retry + 1 } },
        by simp [handle_source_error, State.getSource, State.setSource, hp],
        by simp [State.retryCount],
        by simp [State.retryCount],
        by simp [State.getSource]⟩
    | true =>
      have hs : state.fallback_source = some sb := by simpa [State.getSource] using h
      exact ⟨{ state with
          fallback_source :=
            some { sb with restart_timeout := Option.none, pending_restart := true }
          stats :=
            { state.stats with last_fallback_retry_reason := reason
                               num_fallback_retry := state.stats.num_fallback_retry + 1 } },
        by simp [handle_source_error, State.getSource, State.setSource, hs, hp],
        by simp [State.retryCount],
        by simp [State.retryCount],
        by simp [State.getSource]⟩
  refine ⟨?_, hmain, ?_⟩
  · intro hp
    cases fallback_source with
    | false =>
      have hs : state.source = sb := by simpa [State.getSource] using h
      simp [handle_source_error, State.getSource, hs, hp]
    | true =>
      have hs : state.fallback_source = some sb := by simpa [State.getSource] using h
      simp [handle_source_error, State.getSource, hs, hp]
  · intro hp rs
    obtain ⟨st2, heq, hcount, hother, hget⟩ := hmain hp
    obtain ⟨st3, sb3, heq3, _, _, hcount3, hother3⟩ :=
      apply_error_triggers_pending fallback_source rs st2 _ hget rfl
    refine ⟨st3, ?_, ?_, ?_⟩
    · simp [apply_error_triggers, heq, heq3]
    · omega
    · omega

/-- C1 witness: on a concrete running state with no pending restart, two
concurrent error triggers on the primary source increment `num_retry` exactly
once and leave the fallback counter at zero. -/
theorem c1_single_inflight_restart_amended_witness :
    ∃ st2,
      apply_error_triggers
        { source := SourceBin.fresh
          fallback_source := Option.none
          audio_stream := Option.none
          video_stream := Option.none
          last_buffering_update := Option.none
          fallback_last_buffering_update := Option.none
          settings :=
            { enable_audio := true, enable_video := true, uri := some "u",
              source := Option.none, fallback_uri := Option.none,
              restart_timeout := 5, restart_on_eos := false, manual_unblock := false }
          configured_source := Source.uri "u"
          stats := Stats.default
          manually_blocked := false
          schedule_restart_on_unblock := false }
        false [RetryReason.error, RetryReason.eos] = some st2 ∧
      st2.retryCount false = Stats.default.num_retry + 1 ∧
      st2.retryCount true = Stats.default.num_fallback_retry := by
  have h := (c1_single_inflight_restart_amended
    { source := SourceBin.fresh
      fallback_source := Option.none
      audio_stream := Option.none
      video_stream := Option.none
      last_buffering_update := Option.none
      fallback_last_buffering_update := Option.none
      settings :=
        { enable_audio := true, enable_video := true, uri := some "u",
          source := Option.none, fallback_uri := Option.none,
          restart_timeout := 5, restart_on_eos := false, manual_unblock := false }
      configured_source := Source.uri "u"
      stats := Stats.default
      manually_blocked := false
      schedule_restart_on_unblock := false }
    RetryReason.error false SourceBin.fresh (by simp [State.getSource])).2.2
    rfl [RetryReason.eos]
  simpa [State.retryCount] using h

/-- Whether the primary source's posted stream collection declares a stream of
a kind: the `have_audio` / `have_video` fold at imp.rs lines 3372-3379,
defaulting to false when no collection was posted yet. -/
def State.havePresent (state : State) (k : StreamKind) : Bool :=
  match k with
  | StreamKind.audio => (state.source.streams.map StreamCollection.has_audio).getD false
  | StreamKind.video => (state.source.streams.map StreamCollection.has_video).getD false

/-- Whether a kind's switch currently has an active pad of nonzero priority,
defaulting to true when the switch has no active pad or the stream record is
absent: the `.and_then(active-pad).map(priority != 0).unwrap_or(true)` chain
at imp.rs lines 3386-3391 and 3394-3399. -/
def State.activeNonzero (state : State) (k : StreamKind) : Bool :=
  (((state.streamOf k).bind fun s => s.active_pad_priority).map fun p => p != 0).getD true

/-- `have_fallback_activated` (imp.rs lines 3370-3400): true when no streams
are known yet, OR the audio kind is present with a stream record and a
non-main active input, OR the video kind is (a disjunction of the per-kind
conditions, not a conjunction). -/
def have_fallback_activated (state : State) : Bool :=
  (!(state.havePresent StreamKind.audio) && !(state.havePresent StreamKind.video))
    || (state.havePresent StreamKind.audio && state.audio_stream.isSome &&
        state.activeNonzero StreamKind.audio)
    || (state.havePresent StreamKind.video && state.video_stream.isSome &&
        state.activeNonzero StreamKind.video)

/-- The claim's reading of fallback activation (spec section 4.6), stated for
comparison with `have_fallback_activated`: for EVERY enabled-and-present
stream kind the active input's priority is nonzero (with the code's
defaulting when there is no active pad), which also covers the case of no
present or enabled kinds vacuously. -/
def spec_fallback_activated (state : State) : Bool :=
  (!(state.havePresent StreamKind.audio && state.audio_stream.isSome)
      || state.activeNonzero StreamKind.audio)
    && (!(state.havePresent StreamKind.video && state.video_stream.isSome)
      || state.activeNonzero StreamKind.video)

/-- `schedule_source_restart_timeout` (imp.rs lines 3196-3368): not
implemented for the fallback source; refuses when the source is pending
restart, is a still image, or (for the primary) the element is manually
blocked; otherwise schedules the restart timeout at
`clock.time() + settings.restart_timeout - elapsed`. -/
def schedule_source_restart_timeout (state : State) (clock_now elapsed : Nat)
    (fallback_source : Bool) : State :=
  if fallback_source then state
  else
    match state.getSource fallback_source with
    | Option.none => state
    | some source =>
      if source.pending_restart then state
      else if source.is_image then state
      else if !fallback_source && state.manually_blocked then state
      else
        state.setSource fallback_source
          { source with
            restart_timeout := some (clock_now + state.settings.restart_timeout - elapsed) }

/-- `handle_switch_active_pad_change` (imp.rs lines 3402-3443): on the
fallback-activated side it schedules a restart timeout unless one is already
scheduled; on the main side it unschedules the retry and restart timeouts. -/
def handle_switch_active_pad_change (state : State) (clock_now : Nat) : State :=
  if have_fallback_activated state then
    if state.source.restart_timeout.isNone then
      schedule_source_restart_timeout state clock_now 0 false
    else state
  else
    { state with
      source :=
        { state.source with retry_timeout := Option.none, restart_timeout := Option.none } }

/-- Outcome of one firing of the source restart timeout. -/
inductive RestartTimeoutOutcome where
  | fired
  | rescheduled (elapsed : Nat)
  | not_needed
  deriving DecidableEq, Repr

/-- Body of the restart-timeout callback (imp.rs lines 3270-3363): clears the
timeout handle; when the fallback is activated (or the timer belongs to the
fallback source) it either hands over to `handle_source_error` with reason
`Timeout` when not actively buffering — last buffering update at least the
restart-timeout window ago, or, when no update was ever recorded, buffering
at 100% — or reschedules the timer with the elapsed buffering time
otherwise. `now` serves both as `Instant::now` for the elapsed computation
and as the system clock time for rescheduling. -/
def source_restart_timeout_cb (state : State) (fallback_source : Bool) (now : Nat) :
    Option (State × RestartTimeoutOutcome) :=
  match state.getSource fallback_source with
  | Option.none => some (state, RestartTimeoutOutcome.not_needed)
  | some source =>
    let state1 := state.setSource fallback_source { source with restart_timeout := Option.none }
    if fallback_source || have_fallback_activated state1 then
      let last_update :=
        if fallback_source then state1.fallback_last_buffering_update
        else state1.last_buffering_update
      let percent :=
        if fallback_source then state1.stats.fallback_buffering_percent
        else state1.stats.buffering_percent
      if (last_update.map fun t =>
          decide (state1.settings.restart_timeout ≤ now - t)).getD (percent == 100) then
        (handle_source_error state1 RetryReason.timeout fallback_source).map fun p =>
          (p.1, RestartTimeoutOutcome.fired)
      else
        let elapsed := (last_update.map fun t => now - t).getD 0
        some (schedule_source_restart_timeout state1 now elapsed fallback_source,
          RestartTimeoutOutcome.rescheduled elapsed)
    else
      some (state1, RestartTimeoutOutcome.not_needed)

/-- Concrete running state for the C4 counterexample: both kinds present and
enabled, the audio switch on a fallback input (priority 1), the video switch
on the main input (priority 0). -/
def c4_state : State :=
  { source := { SourceBin.fresh with streams := some { has_audio := true, has_video := true } }
    fallback_source := Option.none
    audio_stream :=
      some { main_branch := Option.none, fallback_branch := Option.none,
             active_pad_priority := some 1 }
    video_stream :=
      some { main_branch := Option.none, fallback_branch := Option.none,
             active_pad_priority := some 0 }
    last_buffering_update := Option.none
    fallback_last_buffering_update := Option.none
    settings :=
      { enable_audio := true, enable_video := true, uri := Option.none,
        source := some 0, fallback_uri := Option.none, restart_timeout := 5,
        restart_on_eos := false, manual_unblock := false }
    configured_source := Source.element 0
    stats := Stats.default
    manually_blocked := false
    schedule_restart_on_unblock := false }

/-- C4 counterexample: fallback activation is NOT the universal condition the
claim states. In `c4_state` the video kind is enabled and present with the
main input active (priority 0), so under the claim's "for every
enabled-and-present stream kind the active priority is nonzero" the fallback
would not count as activated; but `have_fallback_activated` is a disjunction
over kinds (imp.rs lines 3383-3399) and returns true because the audio kind
alone is on a nonzero-priority input. -/
theorem c4_fallback_activated_existential_cex :
    have_fallback_activated c4_state = true ∧
    c4_state.havePresent StreamKind.video = true ∧
    c4_state.video_stream.isSome = true ∧
    c4_state.activeNonzero StreamKind.video = false ∧
    spec_fallback_activated c4_state = false := by
  decide

/-- C4 (amended): "fallback activated" holds exactly when no stream kind is
present yet, or AT LEAST ONE enabled-and-present stream kind has its switch
on an input of nonzero priority (or no active pad yet); on a switch
active-pad change, if fallback is activated and no restart-timeout is
scheduled, exactly one restart-timeout is scheduled (provided the primary is
not pending restart, not a still image and not manually blocked) and the
other timers are untouched; if one is already scheduled nothing changes; and
if fallback is not activated the restart-timeout and retry-timeout are
cancelled. -/
theorem c4_fallback_activation_amended (state : State) (clock_now : Nat) :
    (have_fallback_activated state = true ↔
      (∀ k, state.havePresent k = false) ∨
        ∃ k, state.havePresent k = true ∧ (state.streamOf k).isSome = true ∧
          state.activeNonzero k = true) ∧
    (have_fallback_activated state = true →
      state.source.restart_timeout = Option.none →
      state.source.pending_restart = false →
      state.source.is_image = false →
      state.manually_blocked = false →
      (handle_switch_active_pad_change state clock_now).source.restart_timeout =
          some (clock_now + state.settings.restart_timeout) ∧
        (handle_switch_active_pad_change state clock_now).source.retry_timeout =
          state.source.retry_timeout ∧
        (handle_switch_active_pad_change state clock_now).source.pending_restart_timeout =
          state.source.pending_restart_timeout) ∧
    (have_fallback_activated state = true → state.source.restart_timeout.isSome = true →
      handle_switch_active_pad_change state clock_now = state) ∧
    (have_fallback_activated state = false →
      (handle_switch_active_pad_change state clock_now).source.restart_timeout =
          Option.none ∧
        (handle_switch_active_pad_change state clock_now).source.retry_timeout =
          Option.none) := by
  refine ⟨?_, ?_, ?_, ?_⟩
  · constructor
    · intro h
      simp only [have_fallback_activated, Bool.or_eq_true, Bool.and_eq_true,
        Bool.not_eq_true'] at h
      rcases h with (⟨ha, hv⟩ | ⟨⟨h1, h2⟩, h3⟩) | ⟨⟨h1, h2⟩, h3⟩
      · left
        intro k
        cases k
        · exact ha
        · exact hv
      · right
        exact ⟨StreamKind.audio, h1, h2, h3⟩
      · right
        exact ⟨StreamKind.video, h1, h2, h3⟩
    · rintro (h | ⟨k, h1, h2, h3⟩)
      · simp [have_fallback_activated, h StreamKind.audio, h StreamKind.video]
      · cases k
        · have h2a : state.audio_stream.isSome = true := h2
          simp [have_fallback_activated, h1, h2a, h3]
        · have h2v : state.video_stream.isSome = true := h2
          simp [have_fallback_activated, h1, h2v, h3]
  · intro hact hrt hp himg hmb
    simp [handle_switch_active_pad_change, hact, hrt, schedule_source_restart_timeout,
      State.getSource, State.setSource, hp, himg, hmb]
  · intro hact hsome
    cases ho : state.source.restart_timeout with
    | none => rw [ho] at hsome; simp at hsome
    | some v => simp [handle_switch_active_pad_change, hact, ho]
  · intro hact
    simp [handle_switch_active_pad_change, hact]

/-- Concrete state for the C4 witness: no stream collection posted yet, so the
fallback counts as activated and a pad change arms exactly one
restart-timeout. -/
def c4_witness_state : State :=
  { source := SourceBin.fresh
    fallback_source := Option.none
    audio_stream := some Stream.fresh
    video_stream := some Stream.fresh
    last_buffering_update := Option.none
    fallback_last_buffering_update := Option.none
    settings :=
      { enable_audio := true, enable_video := true, uri := Option.none,
        source := some 0, fallback_uri := Option.none, restart_timeout := 5,
        restart_on_eos := false, manual_unblock := false }
    configured_source := Source.element 0
    stats := Stats.default
    manually_blocked := false
    schedule_restart_on_unblock := false }

/-- C4 witness: on a concrete fallback-activated state with no timer armed,
the active-pad-change handler schedules the restart timeout at now plus the
restart-timeout window and leaves the other timers untouched. -/
theorem c4_fallback_activation_amended_witness :
    (handle_switch_active_pad_change c4_witness_state 7).source.restart_timeout =
        some (7 + c4_witness_state.settings.restart_timeout) ∧
      (handle_switch_active_pad_change c4_witness_state 7).source.retry_timeout =
        c4_witness_state.source.retry_timeout ∧
      (handle_switch_active_pad_change c4_witness_state 7).source.pending_restart_timeout =
        c4_witness_state.source.pending_restart_timeout :=
  (c4_fallback_activation_amended c4_witness_state 7).2.1 (by decide) rfl rfl rfl rfl

/-- The primary source with its restart-timeout handle cleared, the first
thing the restart-timeout callback does. -/
def primary_cleared (state : State) : State :=
  { state with source := { state.source with restart_timeout := Option.none } }

/-- The restart-timeout callback for the primary source, unfolded: clear the
timer handle, then branch on fallback activation and the buffering check. -/
theorem source_restart_timeout_cb_primary (state : State) (now : Nat) :
    source_restart_timeout_cb state false now =
      if have_fallback_activated (primary_cleared state) then
        if ((primary_cleared state).last_buffering_update.map fun t =>
            decide ((primary_cleared state).settings.restart_timeout ≤ now - t)).getD
            ((primary_cleared state).stats.buffering_percent == 100) then
          (handle_source_error (primary_cleared state) RetryReason.timeout false).map
            fun p => (p.1, RestartTimeoutOutcome.fired)
        else
          some (schedule_source_restart_timeout (primary_cleared state) now
              (((primary_cleared state).last_buffering_update.map fun t => now - t).getD 0)
              false,
            RestartTimeoutOutcome.rescheduled
              (((primary_cleared state).last_buffering_update.map fun t => now - t).getD 0))
      else some (primary_cleared state, RestartTimeoutOutcome.not_needed) := rfl

/-- `handle_source_error` on the primary source when no restart is pending:
records the reason, increments the counter, clears the restart timeout and
marks the source pending-restart. -/
theorem handle_source_error_primary_not_pending (state : State) (reason : RetryReason)
    (hp : state.source.pending_restart = false) :
    handle_source_error state reason false =
      some ({ state with
          source :=
            { state.source with restart_timeout := Option.none, pending_restart := true }
          stats :=
            { state.stats with last_retry_reason := reason
                               num_retry := state.stats.num_retry + 1 } }, true) := by
  simp [handle_source_error, State.getSource, State.setSource, hp]

/-- Scheduling the restart timeout never touches the statistics. -/
theorem schedule_source_restart_timeout_stats (state : State) (clock_now elapsed : Nat)
    (fallback_source : Bool) :
    (schedule_source_restart_timeout state clock_now elapsed fallback_source).stats =
      state.stats := by
  unfold schedule_source_restart_timeout
  split
  · rfl
  · split
    · rfl
    · split
      · rfl
      · split
        · rfl
        · split
          · rfl
          · unfold State.setSource
            split <;> rfl

/-- Concrete state for the C2 counterexample: restart timeout armed, fallback
activated (no stream collection yet), buffering already back at 100%, but the
last sub-100% buffering update happened 2 time units ago, inside the 5-unit
restart-timeout window. -/
def c2_state : State :=
  { source := { SourceBin.fresh with restart_timeout := some 99 }
    fallback_source := Option.none
    audio_stream := some Stream.fresh
    video_stream := some Stream.fresh
    last_buffering_update := some 1
    fallback_last_buffering_update := Option.none
    settings :=
      { enable_audio := true, enable_video := true, uri := Option.none,
        source := some 0, fallback_uri := Option.none, restart_timeout := 5,
        restart_on_eos := false, manual_unblock := false }
    configured_source := Source.element 0
    stats := Stats.default
    manually_blocked := false
    schedule_restart_on_unblock := false }

/-- C2 counterexample: the claim says the timeout fires with reason `Timeout`
when the fallback is active and "the last buffering update is older than the
restart-timeout window, or buffering is already at 100%". In `c2_state` the
fallback is active and buffering is at 100%, yet because a buffering update
exists and is younger than the window (elapsed 2 < 5) the callback
reschedules the timer for the remaining budget instead of firing
(imp.rs lines 3316-3318 consult the percentage only when no update was ever
recorded), and the retry counter stays 0. -/
theorem c2_buffering_at_100_reschedules_cex :
    have_fallback_activated c2_state = true ∧
    c2_state.stats.buffering_percent = 100 ∧
    c2_state.last_buffering_update = some 1 ∧
    (3 : Nat) - 1 < c2_state.settings.restart_timeout ∧
    source_restart_timeout_cb c2_state false 3 =
      some ({ c2_state with source := { c2_state.source with restart_timeout := some 6 } },
        RestartTimeoutOutcome.rescheduled 2) ∧
    ((source_restart_timeout_cb c2_state false 3).map fun p => p.1.stats.num_retry) =
      some 0 := by
  decide

/-- C2 (amended): when the primary source's restart-timeout fires, if the
fallback output is active for at least one enabled stream kind (or no streams
are known yet) and the source is not still buffering — meaning the last
buffering update, if one was ever recorded, is at least the restart-timeout
window old, or no update was ever recorded and buffering is at 100% — then
`handle_source_error` runs with reason `Timeout` (incrementing the retry
counter when no restart was pending); if a buffering update younger than the
window exists the timer is rescheduled for the remaining budget instead and
the statistics, including the retry counter, stay unchanged; if the fallback
is not active the callback only clears the timer handle. -/
theorem c2_restart_timeout_fire_amended (state : State) (now : Nat) :
    (have_fallback_activated state = true →
      (state.last_buffering_update.map fun t =>
          decide (state.settings.restart_timeout ≤ now - t)).getD
        (state.stats.buffering_percent == 100) = true →
      state.source.pending_restart = false →
      ∃ st2, source_restart_timeout_cb state false now =
          some (st2, RestartTimeoutOutcome.fired) ∧
        st2.stats.num_retry = state.stats.num_retry + 1 ∧
        st2.stats.last_retry_reason = RetryReason.timeout ∧
        st2.source.pending_restart = true) ∧
    (have_fallback_activated state = true →
      ∀ t, state.last_buffering_update = some t →
        now - t < state.settings.restart_timeout →
        ∃ st2, source_restart_timeout_cb state false now =
            some (st2, RestartTimeoutOutcome.rescheduled (now - t)) ∧
          st2.stats = state.stats ∧
          (state.source.pending_restart = false →
            state.source.is_image = false →
            state.manually_blocked = false →
            st2.source.restart_timeout =
              some (now + state.settings.restart_timeout - (now - t)))) ∧
    (have_fallback_activated state = false →
      source_restart_timeout_cb state false now =
        some ({ state with
            source := { state.source with restart_timeout := Option.none } },
          RestartTimeoutOutcome.not_needed)) := by
  refine ⟨?_, ?_, ?_⟩
  · intro hact hcond hp
    rw [source_restart_timeout_cb_primary]
    have hact2 : have_fallback_activated (primary_cleared state) = true := hact
    have hcond2 : ((primary_cleared state).last_buffering_update.map fun t =>
        decide ((primary_cleared state).settings.restart_timeout ≤ now - t)).getD
        ((primary_cleared state).stats.buffering_percent == 100) = true := hcond
    have hp2 : (primary_cleared state).source.pending_restart = false := hp
    rw [hact2, hcond2]
    simp only [if_true]
    exact ⟨{ state with
        source :=
          { state.source with restart_timeout := Option.none, pending_restart := true }
        stats :=
          { state.stats with last_retry_reason := RetryReason.timeout
                             num_retry := state.stats.num_retry + 1 } },
      by rw [handle_source_error_primary_not_pending _ _ hp2]; rfl,
      rfl, rfl, rfl⟩
  · intro hact t ht hlt
    rw [source_restart_timeout_cb_primary]
    have hact2 : have_fallback_activated (primary_cleared state) = true := hact
    have hlu : (primary_cleared state).last_buffering_update = some t := ht
    have hc : decide ((primary_cleared state).settings.restart_timeout ≤ now - t) = false :=
      decide_eq_false (Nat.not_le.mpr hlt)
    have hcond3 : ((Option.map
        (fun u => decide ((primary_cleared state).settings.restart_timeout ≤ now - u))
        (some t)).getD ((primary_cleared state).stats.buffering_percent == 100)) = false := hc
    rw [hact2, hlu]
    simp only [if_true]
    rw [hcond3]
    simp only [Bool.false_eq_true, if_false]
    refine ⟨schedule_source_restart_timeout (primary_cleared state) now (now - t) false,
      rfl, ?_, ?_⟩
    · exact schedule_source_restart_timeout_stats (primary_cleared state) now (now - t) false
    · intro hp himg hmb
      simp [schedule_source_restart_timeout, State.getSource, State.setSource,
        primary_cleared, hp, himg, hmb]
  · intro hact
    rw [source_restart_timeout_cb_primary]
    have hact2 : have_fallback_activated (primary_cleared state) = false := hact
    rw [hact2]
    rfl

/-- Concrete state for the C2 witness: fallback activated, timer armed, no
buffering update ever recorded and buffering at 100%, so the timeout fires. -/
def c2_witness_state : State :=
  { source := { SourceBin.fresh with restart_timeout := some 99 }
    fallback_source := Option.none
    audio_stream := some Stream.fresh
    video_stream := some Stream.fresh
    last_buffering_update := Option.none
    fallback_last_buffering_update := Option.none
    settings :=
      { enable_audio := true, enable_video := true, uri := Option.none,
        source := some 0, fallback_uri := Option.none, restart_timeout := 5,
        restart_on_eos := false, manual_unblock := false }
    configured_source := Source.element 0
    stats := Stats.default
    manually_blocked := false
    schedule_restart_on_unblock := false }

/-- C2 witness: on a concrete fallback-activated state that is not buffering,
the restart timeout fires, incrementing the retry counter and recording the
Timeout reason. -/
theorem c2_restart_timeout_fire_amended_witness :
    ∃ st2, source_restart_timeout_cb c2_witness_state false 3 =
        some (st2, RestartTimeoutOutcome.fired) ∧
      st2.stats.num_retry = c2_witness_state.stats.num_retry + 1 ∧
      st2.stats.last_retry_reason = RetryReason.timeout ∧
      st2.source.pending_restart = true :=
  (c2_restart_timeout_fire_amended c2_witness_state 3).1 (by decide) (by decide) rfl

/-- What the EOS pad probe installed by `handle_source_pad_added` does with an
EOS event. -/
inductive EosProbeAction where
  | pass
  | restart
  | forward_to_switch
  deriving DecidableEq, Repr

/-- Decision taken by the EOS pad probe (imp.rs lines 1849-1918) on an EOS
event from a source pad: for a pad classified as a still image the event is
left alone (the branch's imagefreeze element, inserted for every image pad at
lines 1808-1824, produces an endless stream, so nothing is retried or
propagated); otherwise, if restart-on-eos is configured or the pad belongs to
the fallback source, the EOS is dropped and `handle_source_error` runs with
reason `Eos`; otherwise the EOS is forwarded to the switch sink pads. -/
def eos_probe_action (is_image restart_on_eos fallback_source : Bool) : EosProbeAction :=
  if is_image then EosProbeAction.pass
  else if restart_on_eos || fallback_source then EosProbeAction.restart
  else EosProbeAction.forward_to_switch

/-- C5: for a still-image source — one whose pads were classified as image,
making the per-source `is_image` flag true — an EOS on any of its output pads
never triggers `handle_source_error` and is never forwarded by the supervisor
(for every `restart-on-eos` setting and for primary and fallback alike), and
`schedule_source_restart_timeout` never arms a restart timeout for it. -/
theorem c5_still_image_eos_exemption (state : State) (restart_on_eos fallback_source : Bool)
    (clock_now elapsed : Nat) (sb : SourceBin)
    (hsb : state.getSource fallback_source = some sb) (himg : sb.is_image = true) :
    eos_probe_action true restart_on_eos fallback_source = EosProbeAction.pass ∧
    eos_probe_action true restart_on_eos fallback_source ≠ EosProbeAction.restart ∧
    eos_probe_action true restart_on_eos fallback_source ≠ EosProbeAction.forward_to_switch ∧
    schedule_source_restart_timeout state clock_now elapsed fallback_source = state := by
  refine ⟨rfl, by simp [eos_probe_action], by simp [eos_probe_action], ?_⟩
  cases fallback_source with
  | true => rfl
  | false =>
    have hs : state.source = sb := by simpa [State.getSource] using hsb
    cases hp : state.source.pending_restart with
    | true => simp [schedule_source_restart_timeout, State.getSource, hp]
    | false =>
      simp [schedule_source_restart_timeout, State.getSource, hp, hs, himg]

/-- Concrete state for the C5 witness: a primary still-image source with
restart-on-eos enabled. -/
def c5_witness_state : State :=
  { source := { SourceBin.fresh with is_image := true }
    fallback_source := Option.none
    audio_stream := Option.none
    video_stream := some Stream.fresh
    last_buffering_update := Option.none
    fallback_last_buffering_update := Option.none
    settings :=
      { enable_audio := false, enable_video := true, uri := Option.none,
        source := some 0, fallback_uri := Option.none, restart_timeout := 5,
        restart_on_eos := true, manual_unblock := false }
    configured_source := Source.element 0
    stats := Stats.default
    manually_blocked := false
    schedule_restart_on_unblock := false }

/-- C5 witness: even with restart-on-eos enabled, the EOS of a concrete
still-image primary source is passed to its image-hold stage (no restart, no
forwarding) and no restart timeout gets scheduled. -/
theorem c5_still_image_eos_exemption_witness :
    eos_probe_action true true false = EosProbeAction.pass ∧
    eos_probe_action true true false ≠ EosProbeAction.restart ∧
    eos_probe_action true true false ≠ EosProbeAction.forward_to_switch ∧
    schedule_source_restart_timeout c5_witness_state 7 0 false = c5_witness_state :=
  c5_still_image_eos_exemption c5_witness_state true false 7 0
    c5_witness_state.source rfl rfl

/-- External pad operations issued by `unblock_pads`. -/
inductive PadAction where
  | set_offset (kind : StreamKind) (offset : Int)
  | remove_probe (kind : StreamKind) (probe_id : Nat)
  deriving DecidableEq, Repr

/-- The running time captured by a branch's block, if any (the
`.and_then(source_srcpad_block).and_then(running_time)` chains at imp.rs
lines 2252-2259). -/
def State.blockRunningTime (state : State) (kind : StreamKind) (fallback : Bool) :
    Option Nat :=
  ((state.branchOf kind fallback).bind fun b => b.source_srcpad_block).bind
    fun b => b.running_time

/-- Whether a branch's source pad carries the EOS pad flag, defaulting to
false when the branch is absent (imp.rs lines 2264-2271). -/
def State.branchEos (state : State) (kind : StreamKind) (fallback : Bool) : Bool :=
  ((state.branchOf kind fallback).map fun b => b.source_srcpad_eos).getD false

/-- Releasing one branch's block: the `source_srcpad_block.take()` blocks of
`unblock_pads` (imp.rs lines 2326-2344, 2370-2378, 2404-2412). When a block
exists it is taken out, the pad offset is applied unless the branch's source
pad is EOS, and the probe is removed in every case. -/
def release_branch (state : State) (kind : StreamKind) (fallback_source : Bool)
    (is_eos : Bool) (offset : Int) : State × List PadAction :=
  match (state.branchOf kind fallback_source).bind
      (fun b => b.source_srcpad_block) with
  | Option.none => (state, [])
  | some block =>
    (state.setBranchBlock kind fallback_source Option.none,
      (if is_eos then [] else [PadAction.set_offset kind offset]) ++
        [PadAction.remove_probe kind block.probe_id])

/-- Core of `unblock_pads` after the gates pass and the stream collection is
known (imp.rs lines 2216-2413): decide which kinds are wanted, wait for every
required non-EOS kind to report a block running time, compute the target
running time and the signed offset `now - target`, and release the blocks.
Returns `none` on the panic path (the `expect("checked above")` unwraps at
lines 2297-2298, reached when in the both-kinds case one required stream is
EOS without ever having recorded a running time while the other is ready). -/
def unblock_core (now : Nat) (state : State) (fallback_source : Bool)
    (streams : StreamCollection) : Option (State × List PadAction) :=
  let want_audio := if fallback_source then streams.has_audio
    else state.settings.enable_audio
  let want_video := if fallback_source then streams.has_video
    else state.settings.enable_video
  let audio_running_time := state.blockRunningTime StreamKind.audio fallback_source
  let video_running_time := state.blockRunningTime StreamKind.video fallback_source
  let audio_is_eos := state.branchEos StreamKind.audio fallback_source
  let video_is_eos := state.branchEos StreamKind.video fallback_source
  if streams.has_audio && want_audio && streams.has_video && want_video then
    if audio_running_time.isNone && !audio_is_eos &&
        video_running_time.isNone && !video_is_eos then
      some (state, [])
    else if audio_running_time.isNone && !audio_is_eos then some (state, [])
    else if video_running_time.isNone && !video_is_eos then some (state, [])
    else
      match audio_running_time, video_running_time with
      | some art, some vrt =>
        let min_running_time :=
          if audio_is_eos then vrt
          else if video_is_eos then art
          else min art vrt
        let offset : Int := (now : Int) - (min_running_time : Int)
        let ra := release_branch state StreamKind.audio fallback_source audio_is_eos offset
        let rv := release_branch ra.1 StreamKind.video fallback_source video_is_eos offset
        some (rv.1, ra.2 ++ rv.2)
      | _, _ => Option.none
  else if streams.has_audio && want_audio then
    match audio_running_time with
    | Option.none => some (state, [])
    | some art =>
      some (release_branch state StreamKind.audio fallback_source audio_is_eos
        ((now : Int) - (art : Int)))
  else if streams.has_video && want_video then
    match video_running_time with
    | Option.none => some (state, [])
    | some vrt =>
      some (release_branch state StreamKind.video fallback_source video_is_eos
        ((now : Int) - (vrt : Int)))
  else some (state, [])

/-- `unblock_pads` (imp.rs lines 2170-2414): defer when the current running
time is unknown, when the primary is manually blocked, when the source is
below 100% buffered, when there is no such source, or when it has posted no
stream collection yet; otherwise run the release logic of `unblock_core`. -/
def unblock_pads (current_running_time : Option Nat) (state : State)
    (fallback_source : Bool) : Option (State × List PadAction) :=
  match current_running_time with
  | Option.none => some (state, [])
  | some now =>
    if !fallback_source && state.manually_blocked then some (state, [])
    else if (if fallback_source then state.stats.fallback_buffering_percent < 100
        else state.stats.buffering_percent < 100) then some (state, [])
    else
      match state.getSource fallback_source with
      | Option.none => some (state, [])
      | some source =>
        match source.streams with
        | Option.none => some (state, [])
        | some streams => unblock_core now state fallback_source streams

/-- A recorded block running time comes from an existing branch with an
existing block. -/
theorem blockRunningTime_some (state : State) (kind : StreamKind) (fallback : Bool)
    (rt : Nat) (h : state.blockRunningTime kind fallback = some rt) :
    ∃ br blk, state.branchOf kind fallback = some br ∧
      br.source_srcpad_block = some blk ∧ blk.running_time = some rt := by
  unfold State.blockRunningTime at h
  rcases Option.bind_eq_some.mp h with ⟨blk, h1, h2⟩
  rcases Option.bind_eq_some.mp h1 with ⟨br, h3, h4⟩
  exact ⟨br, blk, h3, h4, h2⟩

/-- Replacing the block of one kind's branch leaves the other kind's branch
untouched. -/
theorem branchOf_setBranchBlock_other (state : State) (fallback : Bool)
    (b : Option Block) (kind kind2 : StreamKind) (hne : kind ≠ kind2) :
    (state.setBranchBlock kind fallback b).branchOf kind2 fallback =
      state.branchOf kind2 fallback := by
  cases kind with
  | audio =>
    cases kind2 with
    | audio => exact absurd rfl hne
    | video =>
      cases hs : state.audio_stream <;>
        simp [State.setBranchBlock, State.branchOf, State.streamOf, hs]
  | video =>
    cases kind2 with
    | video => exact absurd rfl hne
    | audio =>
      cases hs : state.video_stream <;>
        simp [State.setBranchBlock, State.branchOf, State.streamOf, hs]

/-- Replacing the block of an existing branch yields that branch with the new
block. -/
theorem branchOf_setBranchBlock_same (state : State) (kind : StreamKind)
    (fallback : Bool) (b : Option Block) (br : StreamBranch)
    (h : state.branchOf kind fallback = some br) :
    (state.setBranchBlock kind fallback b).branchOf kind fallback =
      some { br with source_srcpad_block := b } := by
  cases kind with
  | audio =>
    cases hs : state.audio_stream with
    | none => simp [State.branchOf, State.streamOf, hs] at h
    | some s =>
      rw [State.branchOf, State.streamOf] at h
      rw [hs] at h
      simp only [Option.some_bind] at h
      cases fallback with
      | false =>
        simp only [Bool.false_eq_true, if_false] at h
        simp [State.setBranchBlock, State.branchOf, State.streamOf, hs, h]
      | true =>
        simp only [if_true] at h
        simp [State.setBranchBlock, State.branchOf, State.streamOf, hs, h]
  | video =>
    cases hs : state.video_stream with
    | none => simp [State.branchOf, State.streamOf, hs] at h
    | some s =>
      rw [State.branchOf, State.streamOf] at h
      rw [hs] at h
      simp only [Option.some_bind] at h
      cases fallback with
      | false =>
        simp only [Bool.false_eq_true, if_false] at h
        simp [State.setBranchBlock, State.branchOf, State.streamOf, hs, h]
      | true =>
        simp only [if_true] at h
        simp [State.setBranchBlock, State.branchOf, State.streamOf, hs, h]

/-- `release_branch` on a branch with a block: clears the block, applies the
offset unless EOS, always removes the probe. -/
theorem release_branch_spec (state : State) (kind : StreamKind) (fallback : Bool)
    (is_eos : Bool) (offset : Int) (br : StreamBranch) (blk : Block)
    (hbr : state.branchOf kind fallback = some br)
    (hblk : br.source_srcpad_block = some blk) :
    release_branch state kind fallback is_eos offset =
      (state.setBranchBlock kind fallback Option.none,
        (if is_eos then [] else [PadAction.set_offset kind offset]) ++
          [PadAction.remove_probe kind blk.probe_id]) := by
  unfold release_branch
  rw [hbr]
  simp [hblk]

/-- `unblock_pads` when every gate passes and a stream collection is known:
it runs `unblock_core`. -/
theorem unblock_pads_ready (now : Nat) (state : State) (fallback_source : Bool)
    (src : SourceBin) (streams : StreamCollection)
    (hmb : (!fallback_source && state.manually_blocked) = false)
    (hbuf : ¬ (if fallback_source = true then state.stats.fallback_buffering_percent < 100
        else state.stats.buffering_percent < 100))
    (hsrc : state.getSource fallback_source = some src)
    (hstreams : src.streams = some streams) :
    unblock_pads (some now) state fallback_source =
      unblock_core now state fallback_source streams := by
  unfold unblock_pads
  rw [hmb]
  simp only [Bool.false_eq_true, if_false]
  rw [if_neg hbuf]
  simp only [hsrc, hstreams]

/-- The unblock target running time of the claim: minimum of the two observed
running times when both kinds are required, except that an EOS stream does
not constrain the minimum. -/
def unblock_target (audio_eos video_eos : Bool) (art vrt : Nat) : Nat :=
  if audio_eos then vrt else if video_eos then art else min art vrt

/-- C3: when `unblock_pads` releases blocked pads (gates passed: running time
known, not manually blocked, 100% buffered, stream collection known): if both
kinds are required and both have observed running times, the target is their
minimum with an EOS stream not constraining it; if only one kind is required
its observed running time is the target alone; the applied offset is the
signed difference current running time minus target; the offset is applied
only to non-EOS branches and the probe is removed on every affected branch
regardless of EOS. -/
theorem c3_unblock_pads_offset (now : Nat) (state : State) (fallback_source : Bool)
    (src : SourceBin) (streams : StreamCollection)
    (hmb : fallback_source = true ∨ state.manually_blocked = false)
    (hbuf : 100 ≤ (if fallback_source then state.stats.fallback_buffering_percent
        else state.stats.buffering_percent))
    (hsrc : state.getSource fallback_source = some src)
    (hstreams : src.streams = some streams) :
    ((streams.has_audio &&
        (if fallback_source then streams.has_audio else state.settings.enable_audio) &&
        streams.has_video &&
        (if fallback_source then streams.has_video else state.settings.enable_video))
          = true →
      ∀ art vrt, state.blockRunningTime StreamKind.audio fallback_source = some art →
        state.blockRunningTime StreamKind.video fallback_source = some vrt →
        ∃ pa pv,
          unblock_pads (some now) state fallback_source =
            some ((state.setBranchBlock StreamKind.audio fallback_source
                Option.none).setBranchBlock StreamKind.video fallback_source Option.none,
              ((if state.branchEos StreamKind.audio fallback_source then []
                else [PadAction.set_offset StreamKind.audio
                  ((now : Int) - (unblock_target
                    (state.branchEos StreamKind.audio fallback_source)
                    (state.branchEos StreamKind.video fallback_source) art vrt : Nat))]) ++
                  [PadAction.remove_probe StreamKind.audio pa]) ++
              ((if state.branchEos StreamKind.video fallback_source then []
                else [PadAction.set_offset StreamKind.video
                  ((now : Int) - (unblock_target
                    (state.branchEos StreamKind.audio fallback_source)
                    (state.branchEos StreamKind.video fallback_source) art vrt : Nat))]) ++
                  [PadAction.remove_probe StreamKind.video pv]))) ∧
    ((streams.has_audio &&
        (if fallback_source then streams.has_audio else state.settings.enable_audio) &&
        streams.has_video &&
        (if fallback_source then streams.has_video else state.settings.enable_video))
          = false →
      (streams.has_audio &&
        (if fallback_source then streams.has_audio else state.settings.enable_audio))
          = true →
      ∀ art, state.blockRunningTime StreamKind.audio fallback_source = some art →
        ∃ pa,
          unblock_pads (some now) state fallback_source =
            some (state.setBranchBlock StreamKind.audio fallback_source Option.none,
              (if state.branchEos StreamKind.audio fallback_source then []
               else [PadAction.set_offset StreamKind.audio ((now : Int) - (art : Nat))]) ++
                [PadAction.remove_probe StreamKind.audio pa])) ∧
    ((streams.has_audio &&
        (if fallback_source then streams.has_audio else state.settings.enable_audio) &&
        streams.has_video &&
        (if fallback_source then streams.has_video else state.settings.enable_video))
          = false →
      (streams.has_audio &&
        (if fallback_source then streams.has_audio else state.settings.enable_audio))
          = false →
      (streams.has_video &&
        (if fallback_source then streams.has_video else state.settings.enable_video))
          = true →
      ∀ vrt, state.blockRunningTime StreamKind.video fallback_source = some vrt →
        ∃ pv,
          unblock_pads (some now) state fallback_source =
            some (state.setBranchBlock StreamKind.video fallback_source Option.none,
              (if state.branchEos StreamKind.video fallback_source then []
               else [PadAction.set_offset StreamKind.video ((now : Int) - (vrt : Nat))]) ++
                [PadAction.remove_probe StreamKind.video pv])) := by
  have hmb2 : (!fallback_source && state.manually_blocked) = false := by
    rcases hmb with h | h
    · rw [h]
      rfl
    · rw [h, Bool.and_false]
  have hbuf2 : ¬ (if fallback_source = true then
      state.stats.fallback_buffering_percent < 100
    else state.stats.buffering_percent < 100) := by
    cases fallback_source with
    | true => simpa using Int.not_lt.mpr (by simpa using hbuf)
    | false => simpa using Int.not_lt.mpr (by simpa using hbuf)
  have hready := unblock_pads_ready now state fallback_source src streams hmb2 hbuf2
    hsrc hstreams
  refine ⟨?_, ?_, ?_⟩
  · intro hboth art vrt hart hvrt
    obtain ⟨bra, blka, hbra, hblka, hrta⟩ :=
      blockRunningTime_some state StreamKind.audio fallback_source art hart
    obtain ⟨brv, blkv, hbrv, hblkv, hrtv⟩ :=
      blockRunningTime_some state StreamKind.video fallback_source vrt hvrt
    refine ⟨blka.probe_id, blkv.probe_id, ?_⟩
    rw [hready]
    simp only [unblock_core, hboth, if_true, hart, hvrt, Option.isNone_some,
      Bool.false_and, Bool.and_false, Bool.false_eq_true, if_false]
    rw [release_branch_spec state StreamKind.audio fallback_source _ _ bra blka hbra hblka]
    have hbrv2 : (state.setBranchBlock StreamKind.audio fallback_source
        Option.none).branchOf StreamKind.video fallback_source = some brv := by
      rw [branchOf_setBranchBlock_other state fallback_source Option.none
        StreamKind.audio StreamKind.video (by decide)]
      exact hbrv
    rw [release_branch_spec _ StreamKind.video fallback_source _ _ brv blkv hbrv2 hblkv]
    simp [unblock_target]
  · intro hnboth hau art hart
    obtain ⟨bra, blka, hbra, hblka, hrta⟩ :=
      blockRunningTime_some state StreamKind.audio fallback_source art hart
    refine ⟨blka.probe_id, ?_⟩
    rw [hready]
    simp only [unblock_core]
    rw [hnboth]
    simp only [Bool.false_eq_true, if_false]
    rw [hau]
    simp only [if_true, hart]
    rw [release_branch_spec state StreamKind.audio fallback_source _ _ bra blka hbra hblka]
  · intro hnboth hnau hvi vrt hvrt
    obtain ⟨brv, blkv, hbrv, hblkv, hrtv⟩ :=
      blockRunningTime_some state StreamKind.video fallback_source vrt hvrt
    refine ⟨blkv.probe_id, ?_⟩
    rw [hready]
    simp only [unblock_core]
    rw [hnboth]
    simp only [Bool.false_eq_true, if_false]
    rw [hnau]
    simp only [Bool.false_eq_true, if_false]
    rw [hvi]
    simp only [if_true, hvrt]
    rw [release_branch_spec state StreamKind.video fallback_source _ _ brv blkv hbrv hblkv]

/-- Concrete state for the C3 witness: primary source, both kinds enabled and
present, audio blocked at running time 4 (probe 11), video blocked at running
time 6 (probe 22), neither EOS, 100% buffered. -/
def c3_witness_state : State :=
  { source := { SourceBin.fresh with streams := some { has_audio := true, has_video := true } }
    fallback_source := Option.none
    audio_stream :=
      some { main_branch :=
               some { source_srcpad_eos := false
                      source_srcpad_block := some { probe_id := 11, running_time := some 4 } }
             fallback_branch := Option.none
             active_pad_priority := Option.none }
    video_stream :=
      some { main_branch :=
               some { source_srcpad_eos := false
                      source_srcpad_block := some { probe_id := 22, running_time := some 6 } }
             fallback_branch := Option.none
             active_pad_priority := Option.none }
    last_buffering_update := Option.none
    fallback_last_buffering_update := Option.none
    settings :=
      { enable_audio := true, enable_video := true, uri := Option.none,
        source := some 0, fallback_uri := Option.none, restart_timeout := 5,
        restart_on_eos := false, manual_unblock := false }
    configured_source := Source.element 0
    stats := Stats.default
    manually_blocked := false
    schedule_restart_on_unblock := false }

/-- C3 witness: on the concrete state, unblocking at running time 10 takes the
minimum 4 of the two block running times as target, applies offset 6 to both
non-EOS branches and removes both probes. -/
theorem c3_unblock_pads_offset_witness :
    ∃ pa pv,
      unblock_pads (some 10) c3_witness_state false =
        some ((c3_witness_state.setBranchBlock StreamKind.audio false
            Option.none).setBranchBlock StreamKind.video false Option.none,
          ((if c3_witness_state.branchEos StreamKind.audio false then []
            else [PadAction.set_offset StreamKind.audio
              ((10 : Int) - (unblock_target
                (c3_witness_state.branchEos StreamKind.audio false)
                (c3_witness_state.branchEos StreamKind.video false) 4 6 : Nat))]) ++
              [PadAction.remove_probe StreamKind.audio pa]) ++
          ((if c3_witness_state.branchEos StreamKind.video false then []
            else [PadAction.set_offset StreamKind.video
              ((10 : Int) - (unblock_target
                (c3_witness_state.branchEos StreamKind.audio false)
                (c3_witness_state.branchEos StreamKind.video false) 4 6 : Nat))]) ++
              [PadAction.remove_probe StreamKind.video pv])) :=
  (c3_unblock_pads_offset 10 c3_witness_state false c3_witness_state.source
      { has_audio := true, has_video := true }
      (Or.inr rfl) (by decide) rfl rfl).1
    (by decide) 4 6 (by decide) (by decide)

/-- Effect of one buffering message on the supervisor. -/
inductive BufferingEffect where
  | ignored
  | blocked (installed : List StreamKind)
  | unblocked (acts : List PadAction)
  deriving DecidableEq, Repr

/-- The `*buffering_percent = m.percent()` write of `handle_buffering`
(imp.rs lines 2578-2589). -/
def buffering_updated (state : State) (fallback_source : Bool) (percent : Int) : State :=
  if fallback_source then
    { state with stats := { state.stats with fallback_buffering_percent := percent } }
  else { state with stats := { state.stats with buffering_percent := percent } }

/-- The `*last_buffering_update = Some(Instant::now())` write of
`handle_buffering` (imp.rs line 2591). -/
def buffering_stamped (state : State) (fallback_source : Bool) (now : Nat) : State :=
  if fallback_source then { state with fallback_last_buffering_update := some now }
  else { state with last_buffering_update := some now }

/-- One iteration of the blocking loop of `handle_buffering` (imp.rs lines
2593-2617): install a blocking probe on the kind's open branch when it is not
already blocked; a fresh block starts with no running time (imp.rs lines
1995-1999). -/
def install_block (state : State) (kind : StreamKind) (fallback_source : Bool)
    (probe_id : Nat) : State × List StreamKind :=
  match state.branchOf kind fallback_source with
  | Option.none => (state, [])
  | some branch =>
    if branch.source_srcpad_block.isNone then
      (state.setBranchBlock kind fallback_source
        (some { probe_id := probe_id, running_time := Option.none }), [kind])
    else (state, [])

/-- `handle_buffering` (imp.rs lines 2533-2626) for a buffering message
attributed to the primary or fallback container: return untouched while that
source has a restart pending; otherwise update the percentage; below 100%
also stamp the last-update time and block the open branches (audio first,
then video, fresh probe ids passed in); at 100% hand over to `unblock_pads`
on the percentage-updated state. -/
def handle_buffering (state : State) (fallback_source : Bool) (percent : Int)
    (now : Nat) (current_running_time : Option Nat)
    (audio_probe_id video_probe_id : Nat) : Option (State × BufferingEffect) :=
  match state.getSource fallback_source with
  | Option.none => some (state, BufferingEffect.ignored)
  | some source =>
    if source.pending_restart then some (state, BufferingEffect.ignored)
    else
      let state1 := buffering_updated state fallback_source percent
      if percent < 100 then
        let state2 := buffering_stamped state1 fallback_source now
        let ia := install_block state2 StreamKind.audio fallback_source audio_probe_id
        let iv := install_block ia.1 StreamKind.video fallback_source video_probe_id
        some (iv.1, BufferingEffect.blocked (ia.2 ++ iv.2))
      else
        (unblock_pads current_running_time state1 fallback_source).map fun p =>
          (p.1, BufferingEffect.unblocked p.2)

/-- The percentage write hits the right counter. -/
theorem buffering_updated_percent (state : State) (f : Bool) (p : Int) :
    (if f = true then (buffering_updated state f p).stats.fallback_buffering_percent
     else (buffering_updated state f p).stats.buffering_percent) = p := by
  cases f <;> rfl

/-- The timestamp write hits the right slot. -/
theorem buffering_stamped_stamp (state : State) (f : Bool) (now : Nat) :
    (if f = true then (buffering_stamped state f now).fallback_last_buffering_update
     else (buffering_stamped state f now).last_buffering_update) = some now := by
  cases f <;> rfl

/-- Stamping the update time does not change the statistics. -/
theorem buffering_stamped_stats (state : State) (f : Bool) (now : Nat) :
    (buffering_stamped state f now).stats = state.stats := by
  cases f <;> rfl

/-- Neither buffering write touches the branches. -/
theorem buffering_writes_branch (state : State) (f : Bool) (p : Int) (now : Nat)
    (k : StreamKind) :
    (buffering_stamped (buffering_updated state f p) f now).branchOf k f =
      state.branchOf k f := by
  cases f <;> cases k <;> rfl

/-- Replacing a branch block never touches statistics or the buffering
timestamps. -/
theorem setBranchBlock_preserves (state : State) (kind : StreamKind) (fallback : Bool)
    (b : Option Block) :
    (state.setBranchBlock kind fallback b).stats = state.stats ∧
    (state.setBranchBlock kind fallback b).last_buffering_update =
      state.last_buffering_update ∧
    (state.setBranchBlock kind fallback b).fallback_last_buffering_update =
      state.fallback_last_buffering_update := by
  cases kind with
  | audio => cases hs : state.audio_stream <;> simp [State.setBranchBlock, hs]
  | video => cases hs : state.video_stream <;> simp [State.setBranchBlock, hs]

/-- `install_block` either leaves the state alone or installs the fresh
block. -/
theorem install_block_fst (state : State) (kind : StreamKind) (fallback : Bool)
    (pid : Nat) :
    (install_block state kind fallback pid).1 = state ∨
    (install_block state kind fallback pid).1 =
      state.setBranchBlock kind fallback
        (some { probe_id := pid, running_time := Option.none }) := by
  unfold install_block
  cases hb : state.branchOf kind fallback with
  | none => left; rfl
  | some br =>
    cases hblk : br.source_srcpad_block with
    | none => right; simp [hblk]
    | some blk => left; simp [hblk]

/-- Membership in the list of kinds blocked by `install_block`. -/
theorem install_block_mem (state : State) (kind k2 : StreamKind) (fallback : Bool)
    (pid : Nat) :
    k2 ∈ (install_block state kind fallback pid).2 ↔
      k2 = kind ∧ ∃ br, state.branchOf kind fallback = some br ∧
        br.source_srcpad_block = Option.none := by
  unfold install_block
  cases hb : state.branchOf kind fallback with
  | none => simp
  | some br =>
    cases hblk : br.source_srcpad_block with
    | none => simp [hblk]
    | some blk => simp [hblk]

/-- `install_block` on an open unblocked branch installs the fresh block. -/
theorem install_block_installs (state : State) (kind : StreamKind) (fallback : Bool)
    (pid : Nat) (br : StreamBranch) (hbr : state.branchOf kind fallback = some br)
    (hblk : br.source_srcpad_block = Option.none) :
    install_block state kind fallback pid =
      (state.setBranchBlock kind fallback
        (some { probe_id := pid, running_time := Option.none }), [kind]) := by
  unfold install_block
  rw [hbr]
  simp [hblk]

/-- `install_block` preserves statistics and timestamps. -/
theorem install_block_preserves (state : State) (kind : StreamKind) (fallback : Bool)
    (pid : Nat) :
    (install_block state kind fallback pid).1.stats = state.stats ∧
    (install_block state kind fallback pid).1.last_buffering_update =
      state.last_buffering_update ∧
    (install_block state kind fallback pid).1.fallback_last_buffering_update =
      state.fallback_last_buffering_update := by
  rcases install_block_fst state kind fallback pid with h | h <;> rw [h]
  · exact ⟨rfl, rfl, rfl⟩
  · exact setBranchBlock_preserves state kind fallback _

/-- `install_block` of one kind leaves the other kind's branch alone. -/
theorem install_block_branch_other (state : State) (kind k2 : StreamKind)
    (fallback : Bool) (pid : Nat) (hne : kind ≠ k2) :
    (install_block state kind fallback pid).1.branchOf k2 fallback =
      state.branchOf k2 fallback := by
  rcases install_block_fst state kind fallback pid with h | h <;> rw [h]
  exact branchOf_setBranchBlock_other state fallback _ kind k2 hne

/-- Concrete state for the C6 counterexample: the primary source has a restart
pending. -/
def c6_state : State :=
  { source := { SourceBin.fresh with pending_restart := true }
    fallback_source := Option.none
    audio_stream := some Stream.fresh
    video_stream := some Stream.fresh
    last_buffering_update := Option.none
    fallback_last_buffering_update := Option.none
    settings :=
      { enable_audio := true, enable_video := true, uri := Option.none,
        source := some 0, fallback_uri := Option.none, restart_timeout := 5,
        restart_on_eos := false, manual_unblock := false }
    configured_source := Source.element 0
    stats := Stats.default
    manually_blocked := false
    schedule_restart_on_unblock := false }

/-- C6 counterexample: the claim says every buffering message attributed to a
container updates the corresponding percentage and timestamp, but while the
source has a restart pending the handler returns early (imp.rs lines
2565-2568): a 50% message leaves the stored percentage at 100 and the
timestamp empty. -/
theorem c6_pending_restart_ignores_buffering_cex :
    c6_state.source.pending_restart = true ∧
    (50 : Int) < 100 ∧
    handle_buffering c6_state false 50 7 (some 0) 1 2 =
      some (c6_state, BufferingEffect.ignored) ∧
    ((handle_buffering c6_state false 50 7 (some 0) 1 2).map
      fun p => p.1.stats.buffering_percent) = some 100 ∧
    ((handle_buffering c6_state false 50 7 (some 0) 1 2).map
      fun p => p.1.last_buffering_update) = some Option.none := by
  decide

/-- C6 (amended): a buffering message attributed to a source with a pending
restart is ignored entirely; otherwise the corresponding percentage is
updated, and when the reported percentage is below 100 the last-update
timestamp is also recorded and a blocking probe is installed on exactly the
open branches of that source that are not already blocked (audio first, then
video), while at 100 the timestamp is left alone and `unblock_pads` runs on
the percentage-updated state. -/
theorem c6_handle_buffering_amended (state : State) (fallback_source : Bool)
    (percent : Int) (now : Nat) (crt : Option Nat) (pa pv : Nat) (sb : SourceBin)
    (hsrc : state.getSource fallback_source = some sb) :
    (sb.pending_restart = true →
      handle_buffering state fallback_source percent now crt pa pv =
        some (state, BufferingEffect.ignored)) ∧
    (sb.pending_restart = false → percent < 100 →
      ∃ st2 ks, handle_buffering state fallback_source percent now crt pa pv =
          some (st2, BufferingEffect.blocked ks) ∧
        (if fallback_source = true then st2.stats.fallback_buffering_percent
         else st2.stats.buffering_percent) = percent ∧
        (if fallback_source = true then st2.fallback_last_buffering_update
         else st2.last_buffering_update) = some now ∧
        (∀ k, k ∈ ks ↔ ∃ br, state.branchOf k fallback_source = some br ∧
          br.source_srcpad_block = Option.none) ∧
        (∀ k br, state.branchOf k fallback_source = some br →
          br.source_srcpad_block = Option.none →
          st2.branchOf k fallback_source =
            some { br with source_srcpad_block :=
              (some { probe_id := (if k = StreamKind.audio then pa else pv),
                      running_time := Option.none }) })) ∧
    (sb.pending_restart = false → 100 ≤ percent →
      handle_buffering state fallback_source percent now crt pa pv =
        (unblock_pads crt (buffering_updated state fallback_source percent)
          fallback_source).map
          fun p => (p.1, BufferingEffect.unblocked p.2)) := by
  refine ⟨?_, ?_, ?_⟩
  · intro hp
    unfold handle_buffering
    rw [hsrc]
    simp [hp]
  · intro hp hlt
    refine ⟨(install_block (install_block (buffering_stamped
        (buffering_updated state fallback_source percent) fallback_source now)
        StreamKind.audio fallback_source pa).1 StreamKind.video fallback_source pv).1,
      (install_block (buffering_stamped (buffering_updated state fallback_source percent)
        fallback_source now) StreamKind.audio fallback_source pa).2 ++
      (install_block (install_block (buffering_stamped
        (buffering_updated state fallback_source percent) fallback_source now)
        StreamKind.audio fallback_source pa).1 StreamKind.video fallback_source pv).2,
      ?_, ?_, ?_, ?_, ?_⟩
    · unfold handle_buffering
      rw [hsrc]
      simp only [hp, Bool.false_eq_true, if_false, if_pos hlt]
    · have p1 := install_block_preserves
        (buffering_stamped (buffering_updated state fallback_source percent)
          fallback_source now) StreamKind.audio fallback_source pa
      have p2 := install_block_preserves
        (install_block (buffering_stamped (buffering_updated state fallback_source percent)
          fallback_source now) StreamKind.audio fallback_source pa).1
        StreamKind.video fallback_source pv
      rw [show (if fallback_source = true then
          ((install_block (install_block (buffering_stamped
            (buffering_updated state fallback_source percent) fallback_source now)
            StreamKind.audio fallback_source pa).1 StreamKind.video fallback_source
            pv).1).stats.fallback_buffering_percent
        else ((install_block (install_block (buffering_stamped
          (buffering_updated state fallback_source percent) fallback_source now)
          StreamKind.audio fallback_source pa).1 StreamKind.video fallback_source
          pv).1).stats.buffering_percent) =
        (if fallback_source = true then
          (buffering_updated state fallback_source percent).stats.fallback_buffering_percent
        else (buffering_updated state fallback_source percent).stats.buffering_percent)
        from by rw [p2.1, p1.1, buffering_stamped_stats]]
      exact buffering_updated_percent state fallback_source percent
    · have p1 := install_block_preserves
        (buffering_stamped (buffering_updated state fallback_source percent)
          fallback_source now) StreamKind.audio fallback_source pa
      have p2 := install_block_preserves
        (install_block (buffering_stamped (buffering_updated state fallback_source percent)
          fallback_source now) StreamKind.audio fallback_source pa).1
        StreamKind.video fallback_source pv
      rw [show (if fallback_source = true then
          ((install_block (install_block (buffering_stamped
            (buffering_updated state fallback_source percent) fallback_source now)
            StreamKind.audio fallback_source pa).1 StreamKind.video fallback_source
            pv).1).fallback_last_buffering_update
        else ((install_block (install_block (buffering_stamped
          (buffering_updated state fallback_source percent) fallback_source now)
          StreamKind.audio fallback_source pa).1 StreamKind.video fallback_source
          pv).1).last_buffering_update) =
        (if fallback_source = true then
          (buffering_stamped (buffering_updated state fallback_source percent)
            fallback_source now).fallback_last_buffering_update
        else (buffering_stamped (buffering_updated state fallback_source percent)
          fallback_source now).last_buffering_update)
        from by rw [p2.2.2, p1.2.2, p2.2.1, p1.2.1]]
      exact buffering_stamped_stamp (buffering_updated state fallback_source percent)
        fallback_source now
    · intro k
      rw [List.mem_append, install_block_mem, install_block_mem]
      have hbs2a := buffering_writes_branch state fallback_source percent now
        StreamKind.audio
      have hbs2v := buffering_writes_branch state fallback_source percent now
        StreamKind.video
      have hbv : (install_block (buffering_stamped
          (buffering_updated state fallback_source percent) fallback_source now)
          StreamKind.audio fallback_source pa).1.branchOf StreamKind.video
          fallback_source = state.branchOf StreamKind.video fallback_source := by
        rw [install_block_branch_other _ StreamKind.audio StreamKind.video _ _ (by decide)]
        exact hbs2v
      cases k with
      | audio =>
        rw [hbs2a]
        simp
      | video =>
        rw [hbv]
        simp
    · intro k br hbr hblk
      cases k with
      | audio =>
        have hbr2 : (buffering_stamped (buffering_updated state fallback_source percent)
            fallback_source now).branchOf StreamKind.audio fallback_source = some br := by
          rw [buffering_writes_branch]
          exact hbr
        have h1 := install_block_installs _ StreamKind.audio fallback_source pa br hbr2 hblk
        rw [show (install_block (install_block (buffering_stamped
            (buffering_updated state fallback_source percent) fallback_source now)
            StreamKind.audio fallback_source pa).1 StreamKind.video fallback_source
            pv).1.branchOf StreamKind.audio fallback_source =
          (install_block (buffering_stamped (buffering_updated state fallback_source
            percent) fallback_source now) StreamKind.audio fallback_source
            pa).1.branchOf StreamKind.audio fallback_source
          from install_block_branch_other _ StreamKind.video StreamKind.audio _ _
            (by decide)]
        rw [h1]
        simp only [if_pos rfl]
        exact branchOf_setBranchBlock_same _ StreamKind.audio fallback_source _ br hbr2
      | video =>
        have hbr2 : (install_block (buffering_stamped
            (buffering_updated state fallback_source percent) fallback_source now)
            StreamKind.audio fallback_source pa).1.branchOf StreamKind.video
            fallback_source = some br := by
          rw [install_block_branch_other _ StreamKind.audio StreamKind.video _ _
            (by decide), buffering_writes_branch]
          exact hbr
        have h1 := install_block_installs _ StreamKind.video fallback_source pv br hbr2 hblk
        rw [h1]
        rw [if_neg (by decide : ¬ (StreamKind.video = StreamKind.audio))]
        exact branchOf_setBranchBlock_same _ StreamKind.video fallback_source _ br hbr2
  · intro hp hge
    unfold handle_buffering
    rw [hsrc]
    have hnlt : ¬ percent < 100 := Int.not_lt.mpr hge
    simp [hp, hnlt]

/-- Concrete state for the C6 witness: healthy primary source with an open
unblocked audio branch and no video stream. -/
def c6_witness_state : State :=
  { source := { SourceBin.fresh with streams := some { has_audio := true, has_video := false } }
    fallback_source := Option.none
    audio_stream :=
      some { main_branch :=
               some { source_srcpad_eos := false, source_srcpad_block := Option.none }
             fallback_branch := Option.none
             active_pad_priority := Option.none }
    video_stream := Option.none
    last_buffering_update := Option.none
    fallback_last_buffering_update := Option.none
    settings :=
      { enable_audio := true, enable_video := false, uri := Option.none,
        source := some 0, fallback_uri := Option.none, restart_timeout := 5,
        restart_on_eos := false, manual_unblock := false }
    configured_source := Source.element 0
    stats := Stats.default
    manually_blocked := false
    schedule_restart_on_unblock := false }

/-- C6 witness: a 50% buffering message on the concrete healthy state updates
the percentage and timestamp and installs a blocking probe on exactly the
open unblocked audio branch. -/
theorem c6_handle_buffering_amended_witness :
    ∃ st2 ks, handle_buffering c6_witness_state false 50 7 (some 0) 31 32 =
        some (st2, BufferingEffect.blocked ks) ∧
      (if false = true then st2.stats.fallback_buffering_percent
       else st2.stats.buffering_percent) = 50 ∧
      (if false = true then st2.fallback_last_buffering_update
       else st2.last_buffering_update) = some 7 ∧
      (∀ k, k ∈ ks ↔ ∃ br, c6_witness_state.branchOf k false = some br ∧
        br.source_srcpad_block = Option.none) ∧
      (∀ k br, c6_witness_state.branchOf k false = some br →
        br.source_srcpad_block = Option.none →
        st2.branchOf k false =
          some { br with source_srcpad_block :=
            (some { probe_id := (if k = StreamKind.audio then 31 else 32),
                    running_time := Option.none }) }) :=
  (c6_handle_buffering_amended c6_witness_state false 50 7 (some 0) 31 32
    c6_witness_state.source rfl).2.1 rfl (by decide)

end FallbackSrcModel
